import Mathlib

/-!
Verification development for the FigEDIT 2D shape editor (src/FigEDIT.cpp).

The C++ core is shallowly embedded as follows.

* `float` values (positions, rotations, radii, speeds, elapsed times) are
  modelled as exact rationals `ℚ`.  Every numeric scenario evaluated below
  uses only values and operations (+, -, *, comparisons, and square roots of
  perfect squares) on which IEEE single-precision arithmetic is exact, so the
  rational model agrees with the C++ float computation on those runs.
* `sf::Vector2f` becomes `Vec2`, `sf::Color` (four `Uint8` channels) becomes
  `Color` with natural-number channels that are `< 256` for every value the
  program constructs.
* The class hierarchy `ShapeBase` + 8 concrete classes becomes one inductive
  type `Shape` with one constructor per concrete C++ class; the protected
  `ShapeBase` data members live in the `Common` structure carried by every
  constructor.  Render-only state held in the internal `shapePtr` object is
  not tracked when it is overwritten from the logical attributes on every
  `draw` call (each `draw` re-sets the drawable's rotation, scale and fill
  colour from the members), with one exception: the internal rectangle length
  of `LineShapeClass`, which is set from the endpoints at construction and is
  never overwritten, is kept as the `length` field.
* `std::unique_ptr<ShapeBase>` entries of the scene vector become
  `Option Shape` where a null pointer can actually arise (the undo/redo
  handlers); `none` models a null entry.
* Scene files are modelled at the whitespace-token level: a file is a
  `List Tok`, a token being a number or a (whitespace-free) word.  The stream
  operations `<<` and `>>` of the C++ code write and read one token at a
  time.  Inserting a `float` with `<<` uses the default `ofstream` state
  (`defaultfloat`, precision 6), which prints the value correctly rounded to
  six significant decimal digits; the model writes that rounded value
  (`roundSig6`), so the format's precision loss is part of the model.
  Integer and string insertions print exactly.  Extracting a `float` with
  `>>` yields the float nearest the decimal token; the model takes the
  decimal exactly, a further error of at most one part in `2^24`, negligible
  against the `1e-4` tolerance the round-trip claim grants.  `operator>>`
  past the end of the stream fails, leaving the stream in a failed state; in
  the model a failed numeric extraction yields `0` (exercised only in runs
  whose outcome does not depend on that choice).
-/

namespace FigEdit

/-- Model of `sf::Vector2f`: a pair of rational coordinates. -/
structure Vec2 where
  x : ℚ
  y : ℚ
deriving DecidableEq, Repr

/-- Component-wise addition, as for `sf::Vector2f`. -/
def Vec2.add (a b : Vec2) : Vec2 := ⟨a.x + b.x, a.y + b.y⟩

/-- Model of `sf::Color`: four 8-bit channels; every colour the program
builds has channels `< 256`. -/
structure Color where
  r : ℕ
  g : ℕ
  b : ℕ
  a : ℕ
deriving DecidableEq, Repr

/-- The colour `sf::Color::Green`. -/
def Color.green : Color := ⟨0, 255, 0, 255⟩

/-- The colour `sf::Color::Yellow`. -/
def Color.yellow : Color := ⟨255, 255, 0, 255⟩

/-- The `ShapeType` enumeration, in declaration order (so `Circle = 0`, …,
`Text = 7` under `static_cast<int>`). -/
inductive ShapeType where
  | Circle
  | Rectangle
  | Triangle
  | Ellipse
  | Polygon
  | Line
  | Cube
  | Text
deriving DecidableEq, Repr

/-- Value of `static_cast<int>` on a `ShapeType`. -/
def ShapeType.tag : ShapeType → ℤ
  | .Circle => 0
  | .Rectangle => 1
  | .Triangle => 2
  | .Ellipse => 3
  | .Polygon => 4
  | .Line => 5
  | .Cube => 6
  | .Text => 7

/-- The protected data members of `ShapeBase` (the `shapePtr` drawable is
render state re-synchronised from these members and is not tracked). -/
structure Common where
  type : ShapeType
  position : Vec2
  color : Color
  rotation : ℚ
  scale : Vec2
  isSelected : Bool
  isAnimated : Bool
deriving DecidableEq, Repr

/-- The `ShapeBase(type, position, color)` constructor body: rotation `0`,
scale `(1,1)`, not selected, not animated. -/
def Common.init (type : ShapeType) (position : Vec2) (color : Color) : Common :=
  { type := type, position := position, color := color, rotation := 0
    scale := ⟨1, 1⟩, isSelected := false, isAnimated := false }

/-- One constructor per concrete C++ shape class.  Variant fields follow the
private data members of each class (plus, for `line`, the internal rectangle
length set from the endpoints at construction; the `scaleTime`, `blinkTimer`,
`blinkInterval` and `visible` members are the animation accumulators). -/
inductive Shape where
  | circle (common : Common) (radius rotationSpeed scaleSpeed scaleTime : ℚ)
  | cube (common : Common) (size depth rotationAngle : ℚ)
  | text (common : Common) (content : String) (characterSize : ℕ)
      (blinkTimer blinkInterval : ℚ) (visible : Bool)
  | rectangle (common : Common) (size : Vec2) (rotationSpeed scaleSpeed scaleTime : ℚ)
  | triangle (common : Common) (size rotationSpeed : ℚ)
  | ellipse (common : Common) (radiusX radiusY rotationSpeed : ℚ)
  | polygon (common : Common) (points : List Vec2) (rotationSpeed : ℚ)
  | line (common : Common) (thickness rotationSpeed length : ℚ)
deriving DecidableEq, Repr

/-- Access the `ShapeBase` members of any variant. -/
def Shape.common : Shape → Common
  | .circle c .. => c
  | .cube c .. => c
  | .text c .. => c
  | .rectangle c .. => c
  | .triangle c .. => c
  | .ellipse c .. => c
  | .polygon c .. => c
  | .line c .. => c

/-- Rebuild a shape with new `ShapeBase` members (used by the setters). -/
def Shape.withCommon : Shape → Common → Shape
  | .circle _ r rs ss st, c => .circle c r rs ss st
  | .cube _ s d ra, c => .cube c s d ra
  | .text _ ct cs bt bi v, c => .text c ct cs bt bi v
  | .rectangle _ s rs ss st, c => .rectangle c s rs ss st
  | .triangle _ s rs, c => .triangle c s rs
  | .ellipse _ rx ry rs, c => .ellipse c rx ry rs
  | .polygon _ p rs, c => .polygon c p rs
  | .line _ t rs l, c => .line c t rs l

/-- Getter `ShapeBase::getType` — returns the stored `type` member.  Note that
`CubeShapeClass` passes `ShapeType::Polygon` to the base constructor, so a
cube's stored tag is `Polygon`. -/
def Shape.getType (s : Shape) : ShapeType := s.common.type

/-- Getter `ShapeBase::getPosition`. -/
def Shape.getPosition (s : Shape) : Vec2 := s.common.position

/-- Getter `ShapeBase::getRotation`. -/
def Shape.getRotation (s : Shape) : ℚ := s.common.rotation

/-- Getter `ShapeBase::getScale`. -/
def Shape.getScale (s : Shape) : Vec2 := s.common.scale

/-- Getter `ShapeBase::getColor`. -/
def Shape.getColor (s : Shape) : Color := s.common.color

/-- Getter `ShapeBase::animated`. -/
def Shape.animated (s : Shape) : Bool := s.common.isAnimated

/-- Setter `ShapeBase::setPosition` — plain assignment (mirrored into the drawable). -/
def Shape.setPosition (s : Shape) (pos : Vec2) : Shape :=
  s.withCommon { s.common with position := pos }

/-- Setter `ShapeBase::setRotation` — plain assignment, no wrapping or clamping. -/
def Shape.setRotation (s : Shape) (rot : ℚ) : Shape :=
  s.withCommon { s.common with rotation := rot }

/-- Setter `ShapeBase::setScale`. -/
def Shape.setScale (s : Shape) (scl : Vec2) : Shape :=
  s.withCommon { s.common with scale := scl }

/-- Setter `ShapeBase::setColor`. -/
def Shape.setColor (s : Shape) (col : Color) : Shape :=
  s.withCommon { s.common with color := col }

/-- Method `ShapeBase::select`. -/
def Shape.select (s : Shape) : Shape :=
  s.withCommon { s.common with isSelected := true }

/-- Method `ShapeBase::deselect`. -/
def Shape.deselect (s : Shape) : Shape :=
  s.withCommon { s.common with isSelected := false }

/-- Method `ShapeBase::enableAnimation`. -/
def Shape.enableAnimation (s : Shape) (enable : Bool) : Shape :=
  s.withCommon { s.common with isAnimated := enable }

/-- Integer square root by the classical digit-pair recursion, with an
explicit fuel argument so that it reduces in logarithmically many steps; fuel
`64` makes it exact for every argument below `4 ^ 64 = 2 ^ 128`, beyond the
entire single-precision float range. -/
def isqrtAux : ℕ → ℕ → ℕ
  | 0, _ => 0
  | fuel + 1, n =>
    if n = 0 then 0 else
    let r := 2 * isqrtAux fuel (n / 4)
    if (r + 1) * (r + 1) ≤ n then r + 1 else r

/-- Integer square root (floor). -/
def isqrt (n : ℕ) : ℕ := isqrtAux 64 n

/-- Model of `std::sqrt` on the rationals, via integer square roots of
numerator and denominator.  It agrees exactly with the C++ computation on
perfect squares of exactly representable values, which covers every input on
which it is evaluated in this development. -/
def sqrtQ (q : ℚ) : ℚ := (isqrt q.num.toNat : ℚ) / (isqrt q.den : ℚ)

/-- The `CircleShapeClass(position, color, radius)` constructor (default
radius `50`): speeds start at `0`, `scaleTime` at `0`. -/
def CircleShapeClass (position : Vec2) (color : Color) (radius : ℚ) : Shape :=
  .circle (Common.init .Circle position color) radius 0 0 0

/-- The `CubeShapeClass(position, color, size, depth)` constructor.  It calls
`ShapeBase(ShapeType::Polygon, position, color)`, so the stored type tag is
`Polygon`; `rotationAngle` starts at `0`. -/
def CubeShapeClass (position : Vec2) (color : Color) (size depth : ℚ) : Shape :=
  .cube (Common.init .Polygon position color) size depth 0

/-- The `TextShapeClass(position, color, content, font)` constructor:
character size `24`, blink timer `0`, blink interval `0.5`, visible. -/
def TextShapeClass (position : Vec2) (color : Color) (content : String) : Shape :=
  .text (Common.init .Text position color) content 24 0 (1/2) true

/-- The `RectangleShapeClass(position, color, size)` constructor (default
size `(100, 60)`). -/
def RectangleShapeClass (position : Vec2) (color : Color) (size : Vec2) : Shape :=
  .rectangle (Common.init .Rectangle position color) size 0 0 0

/-- The `TriangleShapeClass(position, color, size)` constructor (default size
`100`). -/
def TriangleShapeClass (position : Vec2) (color : Color) (size : ℚ) : Shape :=
  .triangle (Common.init .Triangle position color) size 0

/-- The `EllipseShapeClass(position, color, radiusX, radiusY)` constructor. -/
def EllipseShapeClass (position : Vec2) (color : Color) (radiusX radiusY : ℚ) : Shape :=
  .ellipse (Common.init .Ellipse position color) radiusX radiusY 0

/-- The `PolygonShapeClass(position, color, points)` constructor. -/
def PolygonShapeClass (position : Vec2) (color : Color) (points : List Vec2) : Shape :=
  .polygon (Common.init .Polygon position color) points 0

/-- The `LineShapeClass(startPoint, endPoint, color, thickness)` constructor.
The base is built at the midpoint of the endpoints; the internal rectangle is
given the Euclidean length of the segment (the construction-time angle set on
the drawable is overwritten by `draw` from the `rotation` member, hence not
tracked). -/
def LineShapeClass (startPoint endPoint : Vec2) (color : Color) (thickness : ℚ) : Shape :=
  .line (Common.init .Line ⟨(startPoint.x + endPoint.x) / 2, (startPoint.y + endPoint.y) / 2⟩ color)
    thickness 0
    (sqrtQ ((endPoint.x - startPoint.x) * (endPoint.x - startPoint.x) +
      (endPoint.y - startPoint.y) * (endPoint.y - startPoint.y)))

/-- Method `updateShape(deltaTime)`, per variant, translated from each class's
override.  The rotation-bearing variants (circle, rectangle, triangle,
ellipse, polygon, line) execute, when animated,
`rotation += rotationSpeed * deltaTime; if (rotation > 360) rotation -= 360;`
— a single conditional subtraction guarded by a strict comparison, with no
branch for negative values.  Circle and rectangle additionally advance the
`scaleTime` accumulator (the pulsed scale factor is applied only to the
drawable, not to the `scale` member, and `draw` overwrites it, so only the
accumulator is model state).  Text advances the blink timer and toggles
visibility; `CubeShapeClass::updateShape` has an empty body. -/
def Shape.updateShape (s : Shape) (deltaTime : ℚ) : Shape :=
  match s with
  | .circle c radius rs ss st =>
      if c.isAnimated then
        let rot := c.rotation + rs * deltaTime
        let rot := if rot > 360 then rot - 360 else rot
        .circle { c with rotation := rot } radius rs ss (st + deltaTime)
      else s
  | .rectangle c size rs ss st =>
      if c.isAnimated then
        let rot := c.rotation + rs * deltaTime
        let rot := if rot > 360 then rot - 360 else rot
        .rectangle { c with rotation := rot } size rs ss (st + deltaTime)
      else s
  | .triangle c size rs =>
      if c.isAnimated then
        let rot := c.rotation + rs * deltaTime
        let rot := if rot > 360 then rot - 360 else rot
        .triangle { c with rotation := rot } size rs
      else s
  | .ellipse c rx ry rs =>
      if c.isAnimated then
        let rot := c.rotation + rs * deltaTime
        let rot := if rot > 360 then rot - 360 else rot
        .ellipse { c with rotation := rot } rx ry rs
      else s
  | .polygon c pts rs =>
      if c.isAnimated then
        let rot := c.rotation + rs * deltaTime
        let rot := if rot > 360 then rot - 360 else rot
        .polygon { c with rotation := rot } pts rs
      else s
  | .line c th rs len =>
      if c.isAnimated then
        let rot := c.rotation + rs * deltaTime
        let rot := if rot > 360 then rot - 360 else rot
        .line { c with rotation := rot } th rs len
      else s
  | .text c ct cs bt bi v =>
      if c.isAnimated then
        let bt := bt + deltaTime
        if bt >= bi then .text c ct cs 0 bi (!v) else .text c ct cs bt bi v
      else s
  | .cube .. => s

/-- The rotation speed used by `updateShape` (`0` for the variants whose
update does not touch the rotation member). -/
def Shape.rotSpeedOf : Shape → ℚ
  | .circle _ _ rs _ _ => rs
  | .rectangle _ _ rs _ _ => rs
  | .triangle _ _ rs => rs
  | .ellipse _ _ _ rs => rs
  | .polygon _ _ rs => rs
  | .line _ _ rs _ => rs
  | .text .. => 0
  | .cube .. => 0

/-- Setter `setRotationSpeed`, defined on each class that has the member (reached in
the C++ only through a successful `dynamic_cast`, hence the identity on the
remaining variants). -/
def Shape.setRotationSpeed (s : Shape) (speed : ℚ) : Shape :=
  match s with
  | .circle c r _ ss st => .circle c r speed ss st
  | .rectangle c sz _ ss st => .rectangle c sz speed ss st
  | .triangle c sz _ => .triangle c sz speed
  | .ellipse c rx ry _ => .ellipse c rx ry speed
  | .polygon c p _ => .polygon c p speed
  | .line c t _ l => .line c t speed l
  | _ => s

/-- Setter `setScaleSpeed` (circle and rectangle only). -/
def Shape.setScaleSpeed (s : Shape) (speed : ℚ) : Shape :=
  match s with
  | .circle c r rs _ st => .circle c r rs speed st
  | .rectangle c sz rs _ st => .rectangle c sz rs speed st
  | _ => s

/-- Setter `CircleShapeClass::setRadius`. -/
def Shape.setRadius (s : Shape) (r : ℚ) : Shape :=
  match s with
  | .circle c _ rs ss st => .circle c r rs ss st
  | _ => s

/-- Setter `TextShapeClass::setCharacterSize`. -/
def Shape.setCharacterSize (s : Shape) (size : ℕ) : Shape :=
  match s with
  | .text c ct _ bt bi v => .text c ct size bt bi v
  | _ => s

/-- Method `clone()`, translated override by override.  Every variant other than the
cube rebuilds itself through its own constructor from (position, color,
primary geometry) only — so rotation, scale, flags, speeds and accumulators
are reset by the constructor; the text clone also resets the character size
to the constructor default `24`; the line clone fabricates the endpoints
`position` and `position + (100, 0)`.  The cube clone runs the user-written
copy constructor, which copies `size`, `depth` and `rotationAngle` but calls
`ShapeBase(other.type, other.position, other.color)`, resetting the base
members.  All clones allocate fresh storage (`std::make_unique`), which is
what justifies modelling shapes as plain values. -/
def Shape.clone : Shape → Shape
  | .circle c radius _ _ _ => CircleShapeClass c.position c.color radius
  | .cube c size depth rotationAngle =>
      .cube (Common.init c.type c.position c.color) size depth rotationAngle
  | .text c content _ _ _ _ => TextShapeClass c.position c.color content
  | .rectangle c size _ _ _ => RectangleShapeClass c.position c.color size
  | .triangle c size _ => TriangleShapeClass c.position c.color size
  | .ellipse c rx ry _ => EllipseShapeClass c.position c.color rx ry
  | .polygon c pts _ => PolygonShapeClass c.position c.color pts
  | .line c thickness _ _ =>
      LineShapeClass c.position (Vec2.add c.position ⟨100, 0⟩) c.color thickness

/-- The `Action::Type` enumeration. -/
inductive ActionType where
  | Add
  | Remove
  | Modify
deriving DecidableEq, Repr

/-- The `Action` record: a tagged mutation with a cloned shape snapshot (an
owning pointer, `none` when null) and the index it applies to.  The C++
struct is move-only; moving an `Action` transfers the `shape` pointer and
leaves `none` behind while the scalar `type` and `index` members keep their
values in the moved-from object. -/
structure Action where
  type : ActionType
  shape : Option Shape
  index : ℤ
deriving DecidableEq, Repr

/-- Result of `Action{}` — value initialization: the enum and int members are
zero-initialized (`Type::Add`, `0`) and the pointer is null. -/
def Action.empty : Action := ⟨.Add, none, 0⟩

/-- The two LIFO histories of `UndoRedoManager` (`std::stack`s; the list head
is the stack top). -/
structure UndoRedoManager where
  undoStack : List Action
  redoStack : List Action
deriving DecidableEq, Repr

/-- A freshly constructed manager: both stacks empty. -/
def UndoRedoManager.empty : UndoRedoManager := ⟨[], []⟩

/-- Method `UndoRedoManager::addAction`: push the action onto the undo stack, then
pop the redo stack until it is empty. -/
def UndoRedoManager.addAction (m : UndoRedoManager) (action : Action) : UndoRedoManager :=
  ⟨action :: m.undoStack, []⟩

/-- Query `UndoRedoManager::canUndo`. -/
def UndoRedoManager.canUndo (m : UndoRedoManager) : Bool := !m.undoStack.isEmpty

/-- Query `UndoRedoManager::canRedo`. -/
def UndoRedoManager.canRedo (m : UndoRedoManager) : Bool := !m.redoStack.isEmpty

/-- Method `UndoRedoManager::undo`.  The C++ body moves the top of the undo stack
into a local `action`, pops, pushes `std::move(action)` onto the redo stack —
transferring the owned shape into the redo stack — and only then executes
`return action`: the caller therefore receives the moved-from local, whose
`shape` pointer is null while `type` and `index` still hold their values.
When the undo stack is empty it returns `Action{}` and touches nothing. -/
def UndoRedoManager.undo (m : UndoRedoManager) : Action × UndoRedoManager :=
  match m.undoStack with
  | [] => (Action.empty, m)
  | action :: rest =>
      (⟨action.type, none, action.index⟩, ⟨rest, action :: m.redoStack⟩)

/-- Method `UndoRedoManager::redo` — symmetric to `undo`, with the same moved-from
return. -/
def UndoRedoManager.redo (m : UndoRedoManager) : Action × UndoRedoManager :=
  match m.redoStack with
  | [] => (Action.empty, m)
  | action :: rest =>
      (⟨action.type, none, action.index⟩, ⟨action :: m.undoStack, rest⟩)

/-- The scene vector `std::vector<std::unique_ptr<ShapeBase>>`: entries are
owning pointers, so a null entry (`none`) is representable. -/
abbrev Scene : Type := List (Option Shape)

/-- The "Deshacer" handler from `main`: if an undo is available, pop it and
apply the inverse effect — erase at the index for `Add`, insert the returned
action's shape at the index for `Remove`, assign it at the index for
`Modify`.  (The C++ indexes with a plain `int`; every run evaluated here
keeps it in range.) -/
def deshacer (formas : Scene) (m : UndoRedoManager) : Scene × UndoRedoManager :=
  if m.canUndo then
    let (action, m') := m.undo
    match action.type with
    | .Add => ((formas : List (Option Shape)).eraseIdx action.index.toNat, m')
    | .Remove => ((formas : List (Option Shape)).insertIdx action.index.toNat action.shape, m')
    | .Modify => ((formas : List (Option Shape)).set action.index.toNat action.shape, m')
  else (formas, m)

/-- The "Rehacer" handler from `main`: if a redo is available, pop it and
apply the forward effect — insert the returned action's shape for `Add`,
erase for `Remove`, assign for `Modify`. -/
def rehacer (formas : Scene) (m : UndoRedoManager) : Scene × UndoRedoManager :=
  if m.canRedo then
    let (action, m') := m.redo
    match action.type with
    | .Add => ((formas : List (Option Shape)).insertIdx action.index.toNat action.shape, m')
    | .Remove => ((formas : List (Option Shape)).eraseIdx action.index.toNat, m')
    | .Modify => ((formas : List (Option Shape)).set action.index.toNat action.shape, m')
  else (formas, m)

/-- A whitespace-delimited token of a scene file: a number or a
whitespace-free word. -/
inductive Tok where
  | num (q : ℚ)
  | str (s : String)
deriving DecidableEq, Repr

/-- Conversion used when the C++ reads an integer-typed value from the
stream; every token it is applied to in this development is integral
(denominator `1`), where it is exactly the token's value. -/
def qToInt (q : ℚ) : ℤ := q.num / q.den

/-- Conversion to an unsigned integer (`size_t`, `unsigned int`). -/
def qToNat (q : ℚ) : ℕ := (qToInt q).toNat

/-- Constructor `sf::Color(r, g, b, a)` from `int` channels: narrowing to `Uint8` is
reduction mod 256. -/
def colorFromInts (r g b a : ℤ) : Color :=
  ⟨(r % 256).toNat, (g % 256).toNat, (b % 256).toNat, (a % 256).toNat⟩

/-- Floor of the base-10 logarithm of a positive natural number (number of
decimal digits minus one), with explicit fuel so that it reduces in as many
steps as there are digits; fuel `64` covers every value below `10 ^ 64`. -/
def nlog10 : ℕ → ℕ → ℕ
  | 0, _ => 0
  | fuel + 1, n => if n < 10 then 0 else nlog10 fuel (n / 10) + 1

/-- Integer powers of ten as rationals. -/
def pow10 (z : ℤ) : ℚ :=
  if 0 ≤ z then ((10 : ℚ) ^ z.toNat) else 1 / ((10 : ℚ) ^ (-z).toNat)

/-- Floor of the base-10 logarithm of a positive rational `q = a / b`: it is
`nlog10 a - nlog10 b` or one less, decided by one comparison. -/
def log10Q (q : ℚ) : ℤ :=
  let e0 : ℤ := (nlog10 64 q.num.toNat : ℤ) - (nlog10 64 q.den : ℤ)
  if pow10 e0 ≤ q then e0 else e0 - 1

/-- Round to the nearest integer, ties to even — the rounding used by
correctly-rounded decimal output of binary floating-point values. -/
def roundTiesEven (m : ℚ) : ℤ :=
  let f := qToInt m
  let r := m - f
  if r < 1 / 2 then f
  else if 1 / 2 < r then f + 1
  else if f % 2 = 0 then f else f + 1

/-- Model of inserting a `float` with `<<` under the default `ofstream`
state (`defaultfloat`, precision 6): the written token's value is the input
correctly rounded to six significant decimal digits.  (`%g`-style trailing-
zero stripping and the fixed/scientific choice change only the spelling, not
the value, so only the value is modelled.) -/
def roundSig6 (q : ℚ) : ℚ :=
  if q = 0 then 0
  else
    let aq := |q|
    let e := log10Q aq
    let scale := pow10 (5 - e)
    let mi := roundTiesEven (aq * scale)
    (if q < 0 then -1 else 1) * (mi : ℚ) / scale

/-- A value the six-significant-digit output reproduces exactly — true of
every value the editor's own buttons and loader produce, false of e.g.
`723.4567`. -/
def fmtExact (x : ℚ) : Bool := roundSig6 x == x

/-- The variant-specific fields written by `guardarEscena`'s `switch` on
`getType()`.  Each case downcasts with `dynamic_cast` and writes nothing if
the cast fails; the only shape whose stored tag disagrees with its dynamic
type is the cube (tag `Polygon`), whose cast to `PolygonShapeClass` fails, so
a cube record gets no variant fields at all.  Float fields pass through the
six-significant-digit formatting `roundSig6`; the integer point count prints
exactly. -/
def guardarVariantFields (s : Shape) : List Tok :=
  match s.getType with
  | .Circle =>
      match s with
      | .circle _ radius rs ss _ =>
          [.num (roundSig6 radius), .num (roundSig6 rs), .num (roundSig6 ss)]
      | _ => []
  | .Rectangle =>
      match s with
      | .rectangle _ size rs ss _ =>
          [.num (roundSig6 size.x), .num (roundSig6 size.y),
           .num (roundSig6 rs), .num (roundSig6 ss)]
      | _ => []
  | .Triangle =>
      match s with
      | .triangle _ size rs => [.num (roundSig6 size), .num (roundSig6 rs)]
      | _ => []
  | .Ellipse =>
      match s with
      | .ellipse _ rx ry rs =>
          [.num (roundSig6 rx), .num (roundSig6 ry), .num (roundSig6 rs)]
      | _ => []
  | .Polygon =>
      match s with
      | .polygon _ pts rs =>
          .num pts.length ::
            (pts.flatMap (fun p => [Tok.num (roundSig6 p.x), Tok.num (roundSig6 p.y)]) ++
              [.num (roundSig6 rs)])
      | _ => []
  | .Line =>
      match s with
      | .line _ thickness rs _ => [.num (roundSig6 thickness), .num (roundSig6 rs)]
      | _ => []
  | .Cube => []
  | .Text =>
      match s with
      | .text _ content characterSize _ _ _ => [.str content, .num characterSize]
      | _ => []

/-- One line of `guardarEscena`: the common fields in write order (type tag,
position, rotation, scale, colour channels, animated flag) followed by the
variant fields.  The float-typed fields (position, rotation, scale) go
through the six-significant-digit output `roundSig6`; the tag, the colour
channels (written through `static_cast<int>`) and the flag print exactly. -/
def guardarRecord (s : Shape) : List Tok :=
  [.num (s.getType.tag : ℚ),
   .num (roundSig6 s.getPosition.x), .num (roundSig6 s.getPosition.y),
   .num (roundSig6 s.getRotation),
   .num (roundSig6 s.getScale.x), .num (roundSig6 s.getScale.y),
   .num s.getColor.r, .num s.getColor.g, .num s.getColor.b, .num s.getColor.a,
   .num (if s.animated then 1 else 0)] ++ guardarVariantFields s

/-- Function `guardarEscena`: the shape count followed by one record per shape, in
scene order. -/
def guardarEscena (formas : List Shape) : List Tok :=
  Tok.num formas.length :: formas.flatMap guardarRecord

/-- Extraction `operator>>` into a numeric variable: consume the next number token; at
end of stream (or on a non-numeric token) the extraction fails.  A failed
extraction yields `0` here; no theorem below depends on that choice (the C++
leaves the variable unset and the stream failed). -/
def readNum : List Tok → ℚ × List Tok
  | .num q :: rest => (q, rest)
  | toks => (0, toks)

/-- Call `std::getline(archivo, contenido, ' ')` after `>> std::ws`: consumes one
token as a string (every token it meets in this development is a `str`). -/
def readWord : List Tok → String × List Tok
  | .str s :: rest => (s, rest)
  | .num q :: rest => (toString q, rest)
  | [] => ("", [])

/-- Read `n` coordinate pairs (the polygon point loop of `cargarEscena`). -/
def readPoints : ℕ → List Tok → List Vec2 × List Tok
  | 0, toks => ([], toks)
  | n + 1, toks =>
      let (x, t1) := readNum toks
      let (y, t2) := readNum t1
      let (ps, t3) := readPoints n t2
      (⟨x, y⟩ :: ps, t3)

/-- One iteration of `cargarEscena`'s loop: read the 11 common fields, build
the variant from the stored tag (the `switch` has no case for tag 6 = `Cube`,
and unknown tags leave `nuevaForma` null), then apply animation flag,
rotation and scale through the public setters.  Returns the shape (if any)
and the remaining stream. -/
def cargarRecord (toks : List Tok) : Option Shape × List Tok :=
  let (tipo, t1) := readNum toks
  let (posX, t2) := readNum t1
  let (posY, t3) := readNum t2
  let (rot, t4) := readNum t3
  let (escX, t5) := readNum t4
  let (escY, t6) := readNum t5
  let (r, t7) := readNum t6
  let (g, t8) := readNum t7
  let (b, t9) := readNum t8
  let (a, t10) := readNum t9
  let (anim, t11) := readNum t10
  let posicion : Vec2 := ⟨posX, posY⟩
  let color := colorFromInts (qToInt r) (qToInt g) (qToInt b) (qToInt a)
  let animado : Bool := anim == 1
  let (nuevaForma, rest) :=
    if qToInt tipo = 0 then
      let (radio, u1) := readNum t11
      let (rotSpeed, u2) := readNum u1
      let (scaleSpeed, u3) := readNum u2
      (some (((CircleShapeClass posicion color radio).setRotationSpeed
        rotSpeed).setScaleSpeed scaleSpeed), u3)
    else if qToInt tipo = 1 then
      let (sizeX, u1) := readNum t11
      let (sizeY, u2) := readNum u1
      let (rotSpeed, u3) := readNum u2
      let (scaleSpeed, u4) := readNum u3
      (some (((RectangleShapeClass posicion color ⟨sizeX, sizeY⟩).setRotationSpeed
        rotSpeed).setScaleSpeed scaleSpeed), u4)
    else if qToInt tipo = 2 then
      let (size, u1) := readNum t11
      let (rotSpeed, u2) := readNum u1
      (some ((TriangleShapeClass posicion color size).setRotationSpeed rotSpeed), u2)
    else if qToInt tipo = 3 then
      let (rX, u1) := readNum t11
      let (rY, u2) := readNum u1
      let (rotSpeed, u3) := readNum u2
      (some ((EllipseShapeClass posicion color rX rY).setRotationSpeed rotSpeed), u3)
    else if qToInt tipo = 4 then
      let (puntosCount, u1) := readNum t11
      let (puntos, u2) := readPoints (qToNat puntosCount) u1
      let (rotSpeed, u3) := readNum u2
      (some ((PolygonShapeClass posicion color puntos).setRotationSpeed rotSpeed), u3)
    else if qToInt tipo = 5 then
      let (grosor, u1) := readNum t11
      let (rotSpeed, u2) := readNum u1
      (some ((LineShapeClass ⟨posX - 50, posY⟩ ⟨posX + 50, posY⟩ color
        grosor).setRotationSpeed rotSpeed), u2)
    else if qToInt tipo = 7 then
      let (contenido, u1) := readWord t11
      let (tam, u2) := readNum u1
      (some ((TextShapeClass posicion color contenido).setCharacterSize (qToNat tam)), u2)
    else
      (none, t11)
  match nuevaForma with
  | some f =>
      (some (((f.enableAnimation animado).setRotation rot).setScale ⟨escX, escY⟩), rest)
  | none => (none, rest)

/-- The `for (i = 0; i < cantidad; ++i)` loop of `cargarEscena`: records that
produced no shape are skipped (`if (nuevaForma)`). -/
def cargarLoop : ℕ → List Tok → List Shape
  | 0, _ => []
  | n + 1, toks =>
      match cargarRecord toks with
      | (some f, rest) => f :: cargarLoop n rest
      | (none, rest) => cargarLoop n rest

/-- Function `cargarEscena`: `none` models a file that could not be opened, in which
case the function body is skipped and the collection is untouched; otherwise
the leading count is read, the collection is cleared, and the records are
parsed in order. -/
def cargarEscena (file : Option (List Tok)) (formas : List Shape) : List Shape :=
  match file with
  | none => formas
  | some toks =>
      let (cantidad, t1) := readNum toks
      cargarLoop (qToNat cantidad) t1

/-- Numeric agreement within the `1e-4` tolerance of the round-trip
contract. -/
def approxB (x y : ℚ) : Bool := decide (|x - y| ≤ 1 / 10000)

/-- Component-wise tolerance on 2D vectors. -/
def vecApprox (v w : Vec2) : Bool := approxB v.x w.x && approxB v.y w.y

/-- Pairwise tolerance on point lists (same length, same order). -/
def ptsApprox : List Vec2 → List Vec2 → Bool
  | [], [] => true
  | p :: ps, q :: qs => vecApprox p q && ptsApprox ps qs
  | _, _ => false

/-- Variant-specific part of observable shape equality: the two shapes are
the same variant (as a constructor, so a pseudo-3D cube is not a polygon) and
agree, within tolerance, on the variant fields — radius, sizes, points, line
length/thickness, text content and character size, rotation and scale speeds.
Internal animation accumulators are not observable state of a saved scene. -/
def variantObsEq (s t : Shape) : Bool :=
  match s with
  | .circle _ r rs ss _ =>
      match t with
      | .circle _ r' rs' ss' _ => approxB r r' && approxB rs rs' && approxB ss ss'
      | _ => false
  | .cube _ sz d ra =>
      match t with
      | .cube _ sz' d' ra' => approxB sz sz' && approxB d d' && approxB ra ra'
      | _ => false
  | .text _ ct cs _ _ _ =>
      match t with
      | .text _ ct' cs' _ _ _ => (ct == ct') && (cs == cs')
      | _ => false
  | .rectangle _ sz rs ss _ =>
      match t with
      | .rectangle _ sz' rs' ss' _ => vecApprox sz sz' && approxB rs rs' && approxB ss ss'
      | _ => false
  | .triangle _ sz rs =>
      match t with
      | .triangle _ sz' rs' => approxB sz sz' && approxB rs rs'
      | _ => false
  | .ellipse _ rx ry rs =>
      match t with
      | .ellipse _ rx' ry' rs' => approxB rx rx' && approxB ry ry' && approxB rs rs'
      | _ => false
  | .polygon _ pts rs =>
      match t with
      | .polygon _ pts' rs' => ptsApprox pts pts' && approxB rs rs'
      | _ => false
  | .line _ th rs len =>
      match t with
      | .line _ th' rs' len' => approxB th th' && approxB rs rs' && approxB len len'
      | _ => false

/-- Observable equality of two shapes, with `1e-4` tolerance on numeric
fields: same position, rotation, scale, colour and animated flag, plus the
variant agreement of `variantObsEq`.  The selection flag is a UI-only
outline. -/
def obsEqShape (s t : Shape) : Bool :=
  vecApprox s.getPosition t.getPosition && approxB s.getRotation t.getRotation &&
  vecApprox s.getScale t.getScale && (s.getColor == t.getColor) &&
  (s.animated == t.animated) && variantObsEq s t

/-- Observable equality of two scenes: same length, pairwise observably equal
shapes in the same order. -/
def sceneObsEq : List Shape → List Shape → Bool
  | [], [] => true
  | s :: ss, t :: ts => obsEqShape s t && sceneObsEq ss ts
  | _, _ => false

/-- Well-formedness: the stored `ShapeBase` type tag is the one the variant's
constructor passes (the cube passes `Polygon`).  Every shape the program
constructs satisfies this; no operation changes the tag. -/
def Shape.wfType : Shape → Bool
  | .circle c .. => c.type == .Circle
  | .cube c .. => c.type == .Polygon
  | .text c .. => c.type == .Text
  | .rectangle c .. => c.type == .Rectangle
  | .triangle c .. => c.type == .Triangle
  | .ellipse c .. => c.type == .Ellipse
  | .polygon c .. => c.type == .Polygon
  | .line c .. => c.type == .Line

/-- Colour channels in the `Uint8` range, as every `sf::Color` value is. -/
def colorOk (c : Color) : Bool := c.r ≤ 255 && c.g ≤ 255 && c.b ≤ 255 && c.a ≤ 255

/-- A single whitespace-free token, the only text content the
whitespace-delimited format can round-trip. -/
def tokenOk (content : String) : Bool :=
  !content.isEmpty && content.all (fun ch => !ch.isWhitespace)

/-- Rebuilding a shape with new base members stores exactly those members. -/
theorem Shape.common_withCommon (s : Shape) (c : Common) : (s.withCommon c).common = c := by
  cases s <;> rfl

/-- Claim C6: after `addAction(action)` the new action is on top of the undo
history, `canUndo()` is true, the redo history is empty and `canRedo()` is
false, whatever the previous state (so even if `canRedo()` was true). -/
theorem claim_C6 (m : UndoRedoManager) (a : Action) :
    (m.addAction a).undoStack.head? = some a ∧
    (m.addAction a).canUndo = true ∧
    (m.addAction a).redoStack = [] ∧
    (m.addAction a).canRedo = false :=
  ⟨rfl, rfl, rfl, rfl⟩

/-- Claim C7: `undo()` on an empty undo history and `redo()` on an empty redo
history return the value-initialized empty `Action` (tag `Add`, null shape,
index `0`) and leave the manager — both histories — unchanged; there is no
failure path. -/
theorem claim_C7 (m : UndoRedoManager) :
    (m.undoStack = [] → m.undo = (Action.empty, m)) ∧
    (m.redoStack = [] → m.redo = (Action.empty, m)) := by
  obtain ⟨u, r⟩ := m
  constructor
  · intro h
    simp only at h
    subst h
    rfl
  · intro h
    simp only at h
    subst h
    cases u <;> rfl

/-- Witness for C7 at concrete managers (each with the other stack
non-empty, so the emptiness is the only reason for the no-op). -/
theorem claim_C7_witness :
    UndoRedoManager.undo ⟨[], [Action.empty]⟩ = (Action.empty, ⟨[], [Action.empty]⟩) ∧
    UndoRedoManager.redo ⟨[Action.empty], []⟩ = (Action.empty, ⟨[Action.empty], []⟩) :=
  ⟨(claim_C7 ⟨[], [Action.empty]⟩).1 rfl, (claim_C7 ⟨[Action.empty], []⟩).2 rfl⟩

/-- A one-record scene file whose stored rotation is `400`, outside
`[0, 360)`: a circle at `(10, 20)`, radius `5`. -/
def circleRecord400 : List Tok :=
  [.num 1,
   .num 0, .num 10, .num 20, .num 400, .num 1, .num 1,
   .num 10, .num 20, .num 30, .num 255, .num 0,
   .num 5, .num 0, .num 0]

/-- Claim C9: `setRotation` stores its argument verbatim — `getRotation`
returns exactly `r` for every `r`, negative or `≥ 360`, with no wrapping or
clamping — and `cargarEscena` applies a stored rotation through this
unwrapped setter, so a file rotation of `400` is loaded as exactly `400`. -/
theorem claim_C9 :
    (∀ (s : Shape) (r : ℚ), (s.setRotation r).getRotation = r) ∧
    (cargarEscena (some circleRecord400) []).map Shape.getRotation = [400] := by
  constructor
  · intro s r
    simp [Shape.setRotation, Shape.getRotation, Shape.common_withCommon]
  · with_unfolding_all decide

/-- Claim C10: when the scene file cannot be opened (`none`), `cargarEscena`
returns with the in-memory collection untouched; the collection is cleared
only on the successful-open path. -/
theorem claim_C10 (formas : List Shape) : cargarEscena none formas = formas := rfl

/-- The circle of Scenario B: rotation speed `90`, animation enabled. -/
def circleScenarioB : Shape :=
  ((CircleShapeClass ⟨400, 300⟩ Color.green 50).setRotationSpeed 90).enableAnimation true

/-- Scenario B run: four `updateShape(1.0)` calls. -/
def circleScenarioBRun : Shape :=
  ((((circleScenarioB.updateShape 1).updateShape 1).updateShape 1).updateShape 1)

/-- Counterexample to claim C5: after the four updates the rotation attribute
is not `0` — the wrap `if (rotation > 360) rotation -= 360` uses a strict
comparison, so the value `360` reached at the fourth step is kept. -/
theorem claim_C5_counterexample : ¬ circleScenarioBRun.getRotation = 0 := by with_unfolding_all decide

/-- Claim C5 as amended: the final rotation attribute is exactly `360` (not
`0`): `4 × 90 = 360` is reached exactly and the strict wrap leaves it. -/
theorem claim_C5 : circleScenarioBRun.getRotation = 360 := by with_unfolding_all decide

/-- An animated circle with the negative rotation speed `-90`. -/
def circleNegSpeed : Shape :=
  ((CircleShapeClass ⟨400, 300⟩ Color.green 50).setRotationSpeed (-90)).enableAnimation true

/-- Counterexample to claim C4: with rotation speed `-90` and `dt = 1` a
single `updateShape` drives the rotation attribute to `-90`; the wrap has no
branch for negative values, so `0 ≤ rotation` fails. -/
theorem claim_C4_counterexample : ¬ 0 ≤ (circleNegSpeed.updateShape 1).getRotation := by
  with_unfolding_all decide

/-- Claim C4 as amended: the invariant holds with `360` included and only for
non-negative per-step increments of at most `360`: if the rotation attribute
is in `[0, 360]` and `rotationSpeed * dt ∈ [0, 360]`, it is again in
`[0, 360]` after `updateShape dt` (the bound `360` is attainable, see C5, so
`[0, 360)` is not preserved). -/
theorem claim_C4 (s : Shape) (dt : ℚ) (h1 : 0 ≤ s.getRotation)
    (h2 : s.getRotation ≤ 360) (h3 : 0 ≤ s.rotSpeedOf * dt)
    (h4 : s.rotSpeedOf * dt ≤ 360) :
    0 ≤ (s.updateShape dt).getRotation ∧ (s.updateShape dt).getRotation ≤ 360 := by
  cases s <;>
    simp only [Shape.updateShape, Shape.rotSpeedOf, Shape.getRotation, Shape.common]
      at h1 h2 h3 h4 ⊢ <;>
    (try split_ifs) <;>
    (try simp only [Shape.getRotation, Shape.common]) <;>
    exact ⟨by linarith, by linarith⟩

/-- Witness for C4: a circle at rotation `300`, speed `90`, `dt = 1` lands on
`30 ∈ [0, 360]`. -/
theorem claim_C4_witness :
    0 ≤ ((circleScenarioB.setRotation 300).updateShape 1).getRotation ∧
    ((circleScenarioB.setRotation 300).updateShape 1).getRotation ≤ 360 :=
  claim_C4 (circleScenarioB.setRotation 300) 1 (by with_unfolding_all decide) (by with_unfolding_all decide) (by with_unfolding_all decide) (by with_unfolding_all decide)

/-- The cube built by the "Añadir Cubo" button. -/
def cubeDemo : Shape := CubeShapeClass ⟨500, 400⟩ Color.yellow 100 50

/-- Counterexample to claim C8: a constructed pseudo-3D cube does not report
its own variant — `CubeShapeClass` passes `ShapeType::Polygon` to the base
constructor, so `getType()` returns `Polygon`, not `Cube`. -/
theorem claim_C8_counterexample : ¬ cubeDemo.getType = ShapeType.Cube := by with_unfolding_all decide

/-- Claim C8 as amended: the other seven variants each report their own
variant from `getType()` and hence serialize under their own leading tag, but
a cube reports `Polygon` and its serialized record leads with the `Polygon`
tag `4`. -/
theorem claim_C8 (p a b : Vec2) (c : Color) (radius size depth thickness rx ry : ℚ)
    (sz : Vec2) (pts : List Vec2) (content : String) :
    (CircleShapeClass p c radius).getType = .Circle ∧
    (RectangleShapeClass p c sz).getType = .Rectangle ∧
    (TriangleShapeClass p c size).getType = .Triangle ∧
    (EllipseShapeClass p c rx ry).getType = .Ellipse ∧
    (PolygonShapeClass p c pts).getType = .Polygon ∧
    (LineShapeClass a b c thickness).getType = .Line ∧
    (TextShapeClass p c content).getType = .Text ∧
    (CubeShapeClass p c size depth).getType = .Polygon ∧
    (guardarRecord (CubeShapeClass p c size depth)).head? = some (.num 4) := by
  refine ⟨rfl, rfl, rfl, rfl, rfl, rfl, rfl, rfl, ?_⟩
  simp [guardarRecord]
  norm_num [CubeShapeClass, Shape.getType, Shape.common, Common.init, ShapeType.tag]

/-- Base-member part of what `clone()` produces: same stored type tag,
expected position and same colour, while rotation, scale, selection and
animation are re-initialized by the constructor the clone runs through. -/
def cloneBaseReset (s c : Shape) (expectedPos : Vec2) : Bool :=
  c.getType == s.getType && c.getPosition == expectedPos &&
  c.getColor == s.getColor && c.getRotation == 0 &&
  c.getScale == (⟨1, 1⟩ : Vec2) && c.animated == false &&
  c.common.isSelected == false

/-- Variant fields of the clone (continuation of `cloneSpec`). -/
def cloneVariantSpec (s c : Shape) : Bool :=
  match s with
  | .circle _ r _ _ _ =>
      match c with
      | .circle _ r' rs' ss' st' => r' == r && rs' == 0 && ss' == 0 && st' == 0
      | _ => false
  | .cube _ sz d ra =>
      match c with
      | .cube _ sz' d' ra' => sz' == sz && d' == d && ra' == ra
      | _ => false
  | .text _ ct _ _ _ _ =>
      match c with
      | .text _ ct' cs' bt' bi' v' =>
          ct' == ct && cs' == 24 && bt' == 0 && bi' == (1 / 2 : ℚ) && v' == true
      | _ => false
  | .rectangle _ sz _ _ _ =>
      match c with
      | .rectangle _ sz' rs' ss' st' => sz' == sz && rs' == 0 && ss' == 0 && st' == 0
      | _ => false
  | .triangle _ sz _ =>
      match c with
      | .triangle _ sz' rs' => sz' == sz && rs' == 0
      | _ => false
  | .ellipse _ rx ry _ =>
      match c with
      | .ellipse _ rx' ry' rs' => rx' == rx && ry' == ry && rs' == 0
      | _ => false
  | .polygon _ pts _ =>
      match c with
      | .polygon _ pts' rs' => pts' == pts && rs' == 0
      | _ => false
  | .line _ th _ _ =>
      match c with
      | .line _ th' rs' len' => th' == th && rs' == 0 && len' == 100
      | _ => false

/-- What `clone()` actually produces, field by field: the constructor-
determined state — variant, stored type tag, position, colour, and the
primary geometry (radius / sizes / points / thickness / content / cube
geometry including its accumulated `rotationAngle`) — is reproduced, while
everything else is re-initialized: rotation `0`, scale `(1,1)`, deselected,
animation off, speeds `0`, accumulators `0`, text character size back to the
default `24`, and the line rebuilt as a horizontal segment of length `100`
whose midpoint — the stored position — even moves `50` units to the right of
the source's position. -/
def cloneSpec (s : Shape) : Bool :=
  cloneBaseReset s s.clone
    (match s with
     | .line .. => ⟨s.getPosition.x + 50, s.getPosition.y⟩
     | _ => s.getPosition) &&
  cloneVariantSpec s s.clone

/-- Evaluating the model square root at the clone's squared segment length. -/
theorem sqrtQ_ten_thousand : sqrtQ 10000 = 100 := by with_unfolding_all decide

/-- Closed form of the line clone: `LineShapeClass(position, position +
(100, 0), color, thickness)` is a fresh horizontal line of length `100`
whose stored position (the midpoint) sits `50` units right of the source. -/
theorem clone_line_eq (c : Common) (th rs len : ℚ) :
    (Shape.line c th rs len).clone =
      .line (Common.init .Line ⟨c.position.x + 50, c.position.y⟩ c.color) th 0 100 := by
  simp only [Shape.clone, LineShapeClass, Vec2.add]
  rw [show (c.position.x + (c.position.x + 100)) / 2 = c.position.x + 50 by ring,
    show (c.position.y + (c.position.y + 0)) / 2 = c.position.y by ring,
    show (c.position.x + 100 - c.position.x) * (c.position.x + 100 - c.position.x) +
      (c.position.y + 0 - c.position.y) * (c.position.y + 0 - c.position.y) = 10000 by ring,
    sqrtQ_ten_thousand]

/-- A circle whose rotation attribute has been set to `45`. -/
def circleRot45 : Shape := (CircleShapeClass ⟨400, 300⟩ Color.green 50).setRotation 45

/-- Counterexample to claim C3: `clone()` does not reproduce all observable
fields — cloning a circle rotated to `45` yields a circle with rotation `0`
(the clone is rebuilt through the constructor from position, colour and
radius only). -/
theorem claim_C3_counterexample :
    ¬ circleRot45.clone.getRotation = circleRot45.getRotation := by
  with_unfolding_all decide

/-- Claim C3 as amended: for every (well-formed) shape, `clone()` reproduces
exactly the constructor-determined fields — variant, type tag, position,
colour, primary geometry (and the cube's accumulated rotation angle) — and
resets rotation, scale, selection, the animated flag, the speeds, the
animation accumulators, and the text character size to constructor defaults
(the line is rebuilt as a horizontal length-100 segment).  Storage
independence holds in the C++ because every override allocates fresh state
with `std::make_unique`; in this value-semantics model shapes cannot alias,
which is the faithful image of that fact. -/
theorem claim_C3 (s : Shape) (h : s.wfType = true) : cloneSpec s = true := by
  cases s with
  | line c th rs len =>
      simp only [Shape.wfType, beq_iff_eq] at h
      simp [cloneSpec, cloneBaseReset, cloneVariantSpec, clone_line_eq, Common.init,
        Shape.getType, Shape.getPosition, Shape.getColor, Shape.getRotation,
        Shape.getScale, Shape.animated, Shape.common, h]
  | _ =>
      simp only [Shape.wfType, beq_iff_eq] at h
      simp [cloneSpec, cloneBaseReset, cloneVariantSpec, Shape.clone,
        CircleShapeClass, CubeShapeClass, TextShapeClass,
        RectangleShapeClass, TriangleShapeClass, EllipseShapeClass, PolygonShapeClass,
        Common.init, Shape.getType, Shape.getPosition, Shape.getColor,
        Shape.getRotation, Shape.getScale, Shape.animated, Shape.common, h]

/-- Witness for C3 at the rotated circle of the counterexample. -/
theorem claim_C3_witness : cloneSpec circleRot45 = true :=
  claim_C3 circleRot45 (by with_unfolding_all decide)

/-- The circle created by the "Añadir Círculo" button of Scenario A:
position `(400, 300)`, green, default radius `50`. -/
def circuloA : Shape := CircleShapeClass ⟨400, 300⟩ Color.green 50

/-- The scene right after the Add mutation of Scenario A. -/
def escenaA : Scene := [some circuloA]

/-- The recorded action: `Add` of a clone of the new circle at index `0`. -/
def accionA : Action := ⟨.Add, some circuloA.clone, 0⟩

/-- The manager after recording the Add. -/
def managerA : UndoRedoManager := UndoRedoManager.empty.addAction accionA

/-- Scene and manager after the "Deshacer" handler runs. -/
def afterUndoA : Scene × UndoRedoManager := deshacer escenaA managerA

/-- Scene and manager after the subsequent "Rehacer" handler runs. -/
def afterRedoA : Scene × UndoRedoManager := rehacer afterUndoA.1 afterUndoA.2

/-- Claim C1, evaluated on Scenario A: `undo()` does leave the scene empty,
but `redo()` leaves the scene holding a single null entry instead of the
circle.  `UndoRedoManager::redo` pushes `std::move(action)` onto the undo
stack *before* `return action`, so the caller receives a moved-from `Action`
whose shape pointer is null, and the handler inserts that null pointer.  The
claimed round trip therefore fails on the code (the same moved-from return in
`undo()` likewise breaks undoing a Remove or a Modify, which must re-insert
the snapshot). -/
theorem claim_C1 :
    afterUndoA.1 = [] ∧ afterRedoA.1 = [none] ∧ ¬ afterRedoA.1 = [some circuloA] := by
  with_unfolding_all decide

/-- Exactness of the six-significant-digit output on the written common
(base-class) float fields. -/
def commonFmtExact (c : Common) : Bool :=
  fmtExact c.position.x && fmtExact c.position.y && fmtExact c.rotation &&
  fmtExact c.scale.x && fmtExact c.scale.y

/-- Every float field a record writes survives the six-significant-digit
output unchanged (the colour channels, flags, counts and text content are
integers or strings and always print exactly). -/
def shapeFmtExact : Shape → Bool
  | .circle c r rs ss _ => commonFmtExact c && fmtExact r && fmtExact rs && fmtExact ss
  | .rectangle c sz rs ss _ =>
      commonFmtExact c && fmtExact sz.x && fmtExact sz.y && fmtExact rs && fmtExact ss
  | .triangle c sz rs => commonFmtExact c && fmtExact sz && fmtExact rs
  | .ellipse c rx ry rs => commonFmtExact c && fmtExact rx && fmtExact ry && fmtExact rs
  | .polygon c pts rs =>
      commonFmtExact c && pts.all (fun p => fmtExact p.x && fmtExact p.y) && fmtExact rs
  | .text c _ _ _ _ _ => commonFmtExact c
  | .cube c _ _ _ => commonFmtExact c
  | .line c th rs _ => commonFmtExact c && fmtExact th && fmtExact rs

/-- The shapes whose records survive the format unchanged: circle,
rectangle, triangle, ellipse, polygon and text (with single-token content),
well-formed, with in-range colour channels, and with every float field
representable in six significant digits (so the decimal output loses
nothing).  Lines and cubes are excluded: a reloaded line is re-derived as a
horizontal centred segment, and a cube is stored under the `Polygon` tag
with no variant fields. -/
def safeShape (s : Shape) : Bool :=
  s.wfType && colorOk s.getColor && shapeFmtExact s &&
  (match s with
   | .circle .. => true
   | .rectangle .. => true
   | .triangle .. => true
   | .ellipse .. => true
   | .polygon .. => true
   | .text _ ct _ _ _ _ => tokenOk ct
   | .cube .. => false
   | .line .. => false)

/-- Integer reads of integral tokens are exact (natural-number tokens). -/
theorem qToInt_natCast (n : ℕ) : qToInt (n : ℚ) = n := by
  simp [qToInt]

/-- Integer reads of integral tokens are exact (integer tokens). -/
theorem qToInt_intCast (z : ℤ) : qToInt (z : ℚ) = z := by
  simp [qToInt]

/-- Unsigned reads of natural-number tokens are exact. -/
theorem qToNat_natCast (n : ℕ) : qToNat (n : ℚ) = n := by
  simp [qToNat, qToInt_natCast]

/-- Evaluation of the integer read at the eight type-tag numerals. -/
theorem qToInt_tags :
    qToInt 0 = 0 ∧ qToInt 1 = 1 ∧ qToInt 2 = 2 ∧ qToInt 3 = 3 ∧
    qToInt 4 = 4 ∧ qToInt 5 = 5 ∧ qToInt 6 = 6 ∧ qToInt 7 = 7 := by
  with_unfolding_all decide

/-- Every rational is within tolerance of itself. -/
theorem approxB_self (x : ℚ) : approxB x x = true := by
  simp [approxB]

/-- Every vector is within tolerance of itself. -/
theorem vecApprox_self (v : Vec2) : vecApprox v v = true := by
  simp [vecApprox, approxB_self]

/-- Every point list is within tolerance of itself. -/
theorem ptsApprox_self (l : List Vec2) : ptsApprox l l = true := by
  induction l with
  | nil => rfl
  | cons p ps ih => simp [ptsApprox, vecApprox_self, ih]

/-- Writing the four channels of an in-range colour and reading them back
through the `Uint8` narrowing reproduces the colour. -/
theorem colorFromInts_round (col : Color) (h : colorOk col = true) :
    colorFromInts (qToInt (col.r : ℚ)) (qToInt (col.g : ℚ))
      (qToInt (col.b : ℚ)) (qToInt (col.a : ℚ)) = col := by
  obtain ⟨r, g, b, a⟩ := col
  simp only [colorOk, Bool.and_eq_true, decide_eq_true_eq] at h
  simp only [colorFromInts, qToInt_natCast, Color.mk.injEq]
  refine ⟨?_, ?_, ?_, ?_⟩ <;> omega

/-- The written animated flag reads back as the original Boolean. -/
theorem ite_one_zero_beq_one (b : Bool) : ((if b then (1 : ℚ) else 0) == 1) = b := by
  cases b <;> with_unfolding_all decide

/-- Reading back exactly the points that were written leaves the rest of the
stream untouched. -/
theorem readPoints_flatMap (pts : List Vec2) (rest : List Tok) :
    readPoints pts.length (pts.flatMap (fun p => [Tok.num p.x, Tok.num p.y]) ++ rest) =
      (pts, rest) := by
  induction pts with
  | nil => rfl
  | cons p ps ih => simp [readPoints, readNum, ih]

/-- Writing a point list whose coordinates all survive the six-digit output
produces the exact coordinate tokens. -/
theorem flatMap_roundSig6 (pts : List Vec2)
    (hp : pts.all (fun p => fmtExact p.x && fmtExact p.y) = true) :
    pts.flatMap (fun p => [Tok.num (roundSig6 p.x), Tok.num (roundSig6 p.y)]) =
      pts.flatMap (fun p => [Tok.num p.x, Tok.num p.y]) := by
  induction pts with
  | nil => rfl
  | cons p ps ih =>
      simp only [List.all_cons, Bool.and_eq_true, fmtExact, beq_iff_eq] at hp
      obtain ⟨⟨hx, hy⟩, hrest⟩ := hp
      simp [hx, hy, ih hrest]

/-- One successfully parsed record contributes one shape to the load loop. -/
theorem cargarLoop_cons (n : ℕ) (toks rest : List Tok) (t : Shape)
    (h : cargarRecord toks = (some t, rest)) :
    cargarLoop (n + 1) toks = t :: cargarLoop n rest := by
  simp [cargarLoop, h]

/-- Round trip of one circle record. -/
theorem cargar_guardar_circle (pos : Vec2) (col : Color) (rot : ℚ) (scl : Vec2)
    (sel anim : Bool) (r rs ss st : ℚ) (hcol : colorOk col = true) 
    (hf : shapeFmtExact (.circle ⟨.Circle, pos, col, rot, scl, sel, anim⟩ r rs ss st) = true) (rest : List Tok) :
    cargarRecord (guardarRecord (.circle ⟨.Circle, pos, col, rot, scl, sel, anim⟩ r rs ss st) ++ rest) =
      (some (.circle ⟨.Circle, pos, col, rot, scl, false, anim⟩ r rs ss 0), rest) := by
  simp only [shapeFmtExact, commonFmtExact, fmtExact, Bool.and_eq_true, beq_iff_eq] at hf
  simp [guardarRecord, guardarVariantFields, cargarRecord, readNum, Shape.getType,
    Shape.getPosition, Shape.getScale, Shape.getColor, Shape.getRotation, Shape.animated,
    Shape.common, ShapeType.tag, qToInt_intCast, qToInt_tags.1, qToInt_tags.2.1,
    qToInt_tags.2.2.1, qToInt_tags.2.2.2.1, qToInt_tags.2.2.2.2.1, qToInt_tags.2.2.2.2.2.1,
    qToInt_tags.2.2.2.2.2.2.1, qToInt_tags.2.2.2.2.2.2.2, colorFromInts_round col hcol,
    ite_one_zero_beq_one, CircleShapeClass, Common.init, Shape.setRotationSpeed,
    Shape.setScaleSpeed, Shape.enableAnimation, Shape.setRotation, Shape.setScale,
    Shape.withCommon, hf]

/-- Round trip of one rectangle record. -/
theorem cargar_guardar_rectangle (pos : Vec2) (col : Color) (rot : ℚ) (scl : Vec2)
    (sel anim : Bool) (sz : Vec2) (rs ss st : ℚ) (hcol : colorOk col = true) 
    (hf : shapeFmtExact (.rectangle ⟨.Rectangle, pos, col, rot, scl, sel, anim⟩ sz rs ss st) = true) (rest : List Tok) :
    cargarRecord (guardarRecord (.rectangle ⟨.Rectangle, pos, col, rot, scl, sel, anim⟩ sz rs ss st) ++ rest) =
      (some (.rectangle ⟨.Rectangle, pos, col, rot, scl, false, anim⟩ sz rs ss 0), rest) := by
  simp only [shapeFmtExact, commonFmtExact, fmtExact, Bool.and_eq_true, beq_iff_eq] at hf
  simp [guardarRecord, guardarVariantFields, cargarRecord, readNum, Shape.getType,
    Shape.getPosition, Shape.getScale, Shape.getColor, Shape.getRotation, Shape.animated,
    Shape.common, ShapeType.tag, qToInt_intCast, qToInt_tags.1, qToInt_tags.2.1,
    qToInt_tags.2.2.1, qToInt_tags.2.2.2.1, qToInt_tags.2.2.2.2.1, qToInt_tags.2.2.2.2.2.1,
    qToInt_tags.2.2.2.2.2.2.1, qToInt_tags.2.2.2.2.2.2.2, colorFromInts_round col hcol,
    ite_one_zero_beq_one, RectangleShapeClass, Common.init, Shape.setRotationSpeed,
    Shape.setScaleSpeed, Shape.enableAnimation, Shape.setRotation, Shape.setScale,
    Shape.withCommon, hf]

/-- Round trip of one triangle record. -/
theorem cargar_guardar_triangle (pos : Vec2) (col : Color) (rot : ℚ) (scl : Vec2)
    (sel anim : Bool) (sz rs : ℚ) (hcol : colorOk col = true) 
    (hf : shapeFmtExact (.triangle ⟨.Triangle, pos, col, rot, scl, sel, anim⟩ sz rs) = true) (rest : List Tok) :
    cargarRecord (guardarRecord (.triangle ⟨.Triangle, pos, col, rot, scl, sel, anim⟩ sz rs) ++ rest) =
      (some (.triangle ⟨.Triangle, pos, col, rot, scl, false, anim⟩ sz rs), rest) := by
  simp only [shapeFmtExact, commonFmtExact, fmtExact, Bool.and_eq_true, beq_iff_eq] at hf
  simp [guardarRecord, guardarVariantFields, cargarRecord, readNum, Shape.getType,
    Shape.getPosition, Shape.getScale, Shape.getColor, Shape.getRotation, Shape.animated,
    Shape.common, ShapeType.tag, qToInt_intCast, qToInt_tags.1, qToInt_tags.2.1,
    qToInt_tags.2.2.1, qToInt_tags.2.2.2.1, qToInt_tags.2.2.2.2.1, qToInt_tags.2.2.2.2.2.1,
    qToInt_tags.2.2.2.2.2.2.1, qToInt_tags.2.2.2.2.2.2.2, colorFromInts_round col hcol,
    ite_one_zero_beq_one, TriangleShapeClass, Common.init, Shape.setRotationSpeed,
    Shape.enableAnimation, Shape.setRotation, Shape.setScale, Shape.withCommon, hf]

/-- Round trip of one ellipse record. -/
theorem cargar_guardar_ellipse (pos : Vec2) (col : Color) (rot : ℚ) (scl : Vec2)
    (sel anim : Bool) (rx ry rs : ℚ) (hcol : colorOk col = true) 
    (hf : shapeFmtExact (.ellipse ⟨.Ellipse, pos, col, rot, scl, sel, anim⟩ rx ry rs) = true) (rest : List Tok) :
    cargarRecord (guardarRecord (.ellipse ⟨.Ellipse, pos, col, rot, scl, sel, anim⟩ rx ry rs) ++ rest) =
      (some (.ellipse ⟨.Ellipse, pos, col, rot, scl, false, anim⟩ rx ry rs), rest) := by
  simp only [shapeFmtExact, commonFmtExact, fmtExact, Bool.and_eq_true, beq_iff_eq] at hf
  simp [guardarRecord, guardarVariantFields, cargarRecord, readNum, Shape.getType,
    Shape.getPosition, Shape.getScale, Shape.getColor, Shape.getRotation, Shape.animated,
    Shape.common, ShapeType.tag, qToInt_intCast, qToInt_tags.1, qToInt_tags.2.1,
    qToInt_tags.2.2.1, qToInt_tags.2.2.2.1, qToInt_tags.2.2.2.2.1, qToInt_tags.2.2.2.2.2.1,
    qToInt_tags.2.2.2.2.2.2.1, qToInt_tags.2.2.2.2.2.2.2, colorFromInts_round col hcol,
    ite_one_zero_beq_one, EllipseShapeClass, Common.init, Shape.setRotationSpeed,
    Shape.enableAnimation, Shape.setRotation, Shape.setScale, Shape.withCommon, hf]

/-- Round trip of one polygon record. -/
theorem cargar_guardar_polygon (pos : Vec2) (col : Color) (rot : ℚ) (scl : Vec2)
    (sel anim : Bool) (pts : List Vec2) (rs : ℚ) (hcol : colorOk col = true) 
    (hf : shapeFmtExact (.polygon ⟨.Polygon, pos, col, rot, scl, sel, anim⟩ pts rs) = true) (rest : List Tok) :
    cargarRecord (guardarRecord (.polygon ⟨.Polygon, pos, col, rot, scl, sel, anim⟩ pts rs) ++ rest) =
      (some (.polygon ⟨.Polygon, pos, col, rot, scl, false, anim⟩ pts rs), rest) := by
  simp only [shapeFmtExact, Bool.and_eq_true] at hf
  obtain ⟨⟨hcom, hp⟩, hrs⟩ := hf
  simp only [commonFmtExact, fmtExact, Bool.and_eq_true, beq_iff_eq] at hcom hrs
  simp [guardarRecord, guardarVariantFields, cargarRecord, readNum, Shape.getType,
    Shape.getPosition, Shape.getScale, Shape.getColor, Shape.getRotation, Shape.animated,
    Shape.common, ShapeType.tag, qToInt_intCast, qToInt_tags.1, qToInt_tags.2.1,
    qToInt_tags.2.2.1, qToInt_tags.2.2.2.1, qToInt_tags.2.2.2.2.1, qToInt_tags.2.2.2.2.2.1,
    qToInt_tags.2.2.2.2.2.2.1, qToInt_tags.2.2.2.2.2.2.2, qToNat_natCast, colorFromInts_round col hcol,
    ite_one_zero_beq_one, readPoints_flatMap, PolygonShapeClass, Common.init,
    Shape.setRotationSpeed, Shape.enableAnimation, Shape.setRotation, Shape.setScale,
    Shape.withCommon, flatMap_roundSig6 pts hp, hcom, hrs]

/-- Round trip of one text record with single-token content. -/
theorem cargar_guardar_text (pos : Vec2) (col : Color) (rot : ℚ) (scl : Vec2)
    (sel anim : Bool) (ct : String) (cs : ℕ) (bt bi : ℚ) (v : Bool)
    (hcol : colorOk col = true) 
    (hf : shapeFmtExact (.text ⟨.Text, pos, col, rot, scl, sel, anim⟩ ct cs bt bi v) = true) (rest : List Tok) :
    cargarRecord (guardarRecord (.text ⟨.Text, pos, col, rot, scl, sel, anim⟩ ct cs bt bi v) ++ rest) =
      (some (.text ⟨.Text, pos, col, rot, scl, false, anim⟩ ct cs 0 (1 / 2) true), rest) := by
  simp only [shapeFmtExact, commonFmtExact, fmtExact, Bool.and_eq_true, beq_iff_eq] at hf
  simp [guardarRecord, guardarVariantFields, cargarRecord, readNum, readWord, Shape.getType,
    Shape.getPosition, Shape.getScale, Shape.getColor, Shape.getRotation, Shape.animated,
    Shape.common, ShapeType.tag, qToInt_intCast, qToInt_tags.1, qToInt_tags.2.1,
    qToInt_tags.2.2.1, qToInt_tags.2.2.2.1, qToInt_tags.2.2.2.2.1, qToInt_tags.2.2.2.2.2.1,
    qToInt_tags.2.2.2.2.2.2.1, qToInt_tags.2.2.2.2.2.2.2, qToNat_natCast, colorFromInts_round col hcol,
    ite_one_zero_beq_one, TextShapeClass, Common.init, Shape.setCharacterSize,
    Shape.enableAnimation, Shape.setRotation, Shape.setScale, Shape.withCommon, hf]

/-- Parsing back the concatenated records of a safe scene yields, record by
record, shapes observably equal to the originals. -/
theorem sceneObsEq_loop (S : List Shape) (h : ∀ s ∈ S, safeShape s = true) :
    sceneObsEq (cargarLoop S.length (S.flatMap guardarRecord)) S = true := by
  induction S with
  | nil => rfl
  | cons s ss ih =>
      have hs : safeShape s = true := h s (List.mem_cons_self s ss)
      have ihs := ih (fun x hx => h x (List.mem_cons_of_mem s hx))
      rw [List.flatMap_cons, List.length_cons]
      cases s with
      | circle c r rs ss' st =>
          obtain ⟨ty, pos, col, rot, scl, sel, anim⟩ := c
          simp only [safeShape, Shape.wfType, Shape.getColor, Shape.common,
            Bool.and_eq_true, beq_iff_eq] at hs
          obtain ⟨⟨⟨hty, hcol⟩, hfmt⟩, -⟩ := hs
          subst hty
          rw [cargarLoop_cons _ _ _ _ (cargar_guardar_circle pos col rot scl sel anim r rs ss' st hcol hfmt _)]
          simp [sceneObsEq, obsEqShape, variantObsEq, approxB_self, vecApprox_self,
            Shape.getPosition, Shape.getRotation, Shape.getScale, Shape.getColor,
            Shape.animated, Shape.common, ihs]
      | rectangle c sz rs ss' st =>
          obtain ⟨ty, pos, col, rot, scl, sel, anim⟩ := c
          simp only [safeShape, Shape.wfType, Shape.getColor, Shape.common,
            Bool.and_eq_true, beq_iff_eq] at hs
          obtain ⟨⟨⟨hty, hcol⟩, hfmt⟩, -⟩ := hs
          subst hty
          rw [cargarLoop_cons _ _ _ _ (cargar_guardar_rectangle pos col rot scl sel anim sz rs ss' st hcol hfmt _)]
          simp [sceneObsEq, obsEqShape, variantObsEq, approxB_self, vecApprox_self,
            Shape.getPosition, Shape.getRotation, Shape.getScale, Shape.getColor,
            Shape.animated, Shape.common, ihs]
      | triangle c sz rs =>
          obtain ⟨ty, pos, col, rot, scl, sel, anim⟩ := c
          simp only [safeShape, Shape.wfType, Shape.getColor, Shape.common,
            Bool.and_eq_true, beq_iff_eq] at hs
          obtain ⟨⟨⟨hty, hcol⟩, hfmt⟩, -⟩ := hs
          subst hty
          rw [cargarLoop_cons _ _ _ _ (cargar_guardar_triangle pos col rot scl sel anim sz rs hcol hfmt _)]
          simp [sceneObsEq, obsEqShape, variantObsEq, approxB_self, vecApprox_self,
            Shape.getPosition, Shape.getRotation, Shape.getScale, Shape.getColor,
            Shape.animated, Shape.common, ihs]
      | ellipse c rx ry rs =>
          obtain ⟨ty, pos, col, rot, scl, sel, anim⟩ := c
          simp only [safeShape, Shape.wfType, Shape.getColor, Shape.common,
            Bool.and_eq_true, beq_iff_eq] at hs
          obtain ⟨⟨⟨hty, hcol⟩, hfmt⟩, -⟩ := hs
          subst hty
          rw [cargarLoop_cons _ _ _ _ (cargar_guardar_ellipse pos col rot scl sel anim rx ry rs hcol hfmt _)]
          simp [sceneObsEq, obsEqShape, variantObsEq, approxB_self, vecApprox_self,
            Shape.getPosition, Shape.getRotation, Shape.getScale, Shape.getColor,
            Shape.animated, Shape.common, ihs]
      | polygon c pts rs =>
          obtain ⟨ty, pos, col, rot, scl, sel, anim⟩ := c
          simp only [safeShape, Shape.wfType, Shape.getColor, Shape.common,
            Bool.and_eq_true, beq_iff_eq] at hs
          obtain ⟨⟨⟨hty, hcol⟩, hfmt⟩, -⟩ := hs
          subst hty
          rw [cargarLoop_cons _ _ _ _ (cargar_guardar_polygon pos col rot scl sel anim pts rs hcol hfmt _)]
          simp [sceneObsEq, obsEqShape, variantObsEq, approxB_self, vecApprox_self,
            ptsApprox_self, Shape.getPosition, Shape.getRotation, Shape.getScale,
            Shape.getColor, Shape.animated, Shape.common, ihs]
      | text c ct cs bt bi v =>
          obtain ⟨ty, pos, col, rot, scl, sel, anim⟩ := c
          simp only [safeShape, Shape.wfType, Shape.getColor, Shape.common,
            Bool.and_eq_true, beq_iff_eq] at hs
          obtain ⟨⟨⟨hty, hcol⟩, hfmt⟩, -⟩ := hs
          subst hty
          rw [cargarLoop_cons _ _ _ _ (cargar_guardar_text pos col rot scl sel anim ct cs bt bi v hcol hfmt _)]
          simp [sceneObsEq, obsEqShape, variantObsEq, approxB_self, vecApprox_self,
            Shape.getPosition, Shape.getRotation, Shape.getScale, Shape.getColor,
            Shape.animated, Shape.common, ihs]
      | cube c sz d ra =>
          simp [safeShape] at hs
      | line c th rs len =>
          simp [safeShape] at hs

/-- The line of the counterexample scene: from `(0,0)` to `(200,0)`, length
`200`, midpoint `(100, 0)`. -/
def lineC2 : Shape := LineShapeClass ⟨0, 0⟩ ⟨200, 0⟩ Color.yellow 5

/-- A scene holding one instance of every supported variant (text content a
single token), the cube last. -/
def sceneC2 : List Shape :=
  [lineC2,
   CircleShapeClass ⟨400, 300⟩ Color.green 50,
   RectangleShapeClass ⟨600, 300⟩ Color.green ⟨100, 60⟩,
   TriangleShapeClass ⟨800, 300⟩ Color.green 100,
   EllipseShapeClass ⟨500, 400⟩ Color.yellow 80 40,
   PolygonShapeClass ⟨700, 400⟩ Color.green [⟨0, 60⟩, ⟨50, 0⟩, ⟨100, 60⟩, ⟨75, 120⟩, ⟨25, 120⟩],
   TextShapeClass ⟨100, 100⟩ Color.green "Texto",
   CubeShapeClass ⟨500, 400⟩ Color.yellow 100 50]

/-- Counterexample to claim C2: saving and re-loading the scene with one
instance of every variant does not reproduce it, even within the `1e-4`
tolerance.  Two failure points are exhibited at once: the line (record stores
only thickness and rotation speed, so the loader fabricates a horizontal
segment of length `100` where the original had length `200`) and the cube
(saved under the `Polygon` tag with no variant-specific fields, it decodes
into a point-less polygon, not a cube). -/
theorem claim_C2_counterexample :
    sceneObsEq (cargarEscena (some (guardarEscena sceneC2)) []) sceneC2 = false := by
  with_unfolding_all decide

/-- Demonstration that the six-significant-digit output by itself already
breaks the claimed `1e-4` tolerance at editor-range coordinates: a circle at
`x = 723.4567` is written as `723.457` and reloads with an error of `3e-4`,
so even the "safe" variants round-trip only when their float fields fit in
six significant digits. -/
theorem roundTrip_precision_loss :
    sceneObsEq
      (cargarEscena
        (some (guardarEscena [CircleShapeClass ⟨7234567 / 10000, 300⟩ Color.green 50])) [])
      [CircleShapeClass ⟨7234567 / 10000, 300⟩ Color.green 50] = false := by
  with_unfolding_all decide

/-- Claim C2 as amended: the round trip reproduces — exactly, hence within
the claimed `1e-4` tolerance — every scene whose shapes are circles,
rectangles, triangles, ellipses, polygons and texts with single-token
content, well-formed, with colour channels in range, and with every float
field representable in six significant decimal digits (the default
`ofstream` precision the saver writes with).  Outside that the claim fails:
fields needing more than six significant digits lose up to `5` units in the
sixth digit (a circle at `x = 723.4567` reloads at `723.457`, error `3e-4` —
see `roundTrip_precision_loss`), line endpoints are re-derived as a
horizontal centred segment of length `100`, and a cube is saved under the
`Polygon` tag with no variant fields. -/
theorem claim_C2 (S formas : List Shape) (h : ∀ s ∈ S, safeShape s = true) :
    sceneObsEq (cargarEscena (some (guardarEscena S)) formas) S = true := by
  have hloop := sceneObsEq_loop S h
  simpa [cargarEscena, guardarEscena, readNum, qToNat_natCast] using hloop

/-- Witness for C2: a two-shape safe scene, saved and reloaded. -/
theorem claim_C2_witness :
    sceneObsEq
      (cargarEscena
        (some (guardarEscena [CircleShapeClass ⟨1, 2⟩ Color.green 50,
          TextShapeClass ⟨3, 4⟩ Color.yellow "Texto"]))
        [])
      [CircleShapeClass ⟨1, 2⟩ Color.green 50,
       TextShapeClass ⟨3, 4⟩ Color.yellow "Texto"] = true :=
  claim_C2 _ [] (by with_unfolding_all decide)

end FigEdit
